import Mathlib

/-!
Verification of the business-viability calculation pipeline
(`etsyFeesCalculator`, `calculateMaterialCosts`, `analyzeBusinessCosts`,
`estimateSalesVolume`, `suggestAdvertisingPlatforms`, `generateBusinessPlan`).

JavaScript numbers are modelled as rationals (`ℚ`); `Math.round`,
`Math.floor` and `Math.ceil` become the corresponding integer operations.
Fields of the results that are pure presentation strings built by numeric
interpolation (key insights, action items, textual factors) are not part of
any verified property and are either omitted or represented by tag values
that record exactly the condition under which the source pushes the string.
-/

namespace AgentDemos

/-- JS `Math.round`: round half toward positive infinity. -/
def jsRound (q : ℚ) : ℤ := ⌊q + 1/2⌋

/-- `Math.round(x * 100) / 100`: round to cents, as used throughout the source. -/
def round2 (q : ℚ) : ℚ := (jsRound (q * 100) : ℚ) / 100

/-- JS `x || d` for an optional number `x`: `undefined`/`null` and `0` are falsy. -/
def jsOrDefault (x : Option ℚ) (d : ℚ) : ℚ :=
  match x with
  | none => d
  | some v => if v = 0 then d else v

/-! ### FeeCalculator (`lib/util.ts`, `etsyFeesCalculator`) -/

structure EtsyFees where
  listingFee : ℚ
  transactionFee : ℚ
  paymentProcessingFee : ℚ
  offsiteAdsFee : ℚ
  deriving Repr, DecidableEq

/-- `etsyFeesCalculator` from `lib/util.ts`.  `offsiteAds : Option Bool`
models the `boolean | null` parameter; the fee rate is nonzero only when the
flag is strictly `true`. -/
def etsyFeesCalculator (itemPrice : ℚ) (offsiteAds : Option Bool) : EtsyFees :=
  let listingFee : ℚ := 2/10
  let transactionFeeRate : ℚ := 65/1000
  let paymentProcessingFeeRate : ℚ := 3/100
  let paymentProcessingFixedFee : ℚ := 25/100
  let offsiteAdsFeeRate : ℚ := if offsiteAds = some true then 12/100 else 0
  { listingFee := listingFee
    transactionFee := itemPrice * transactionFeeRate
    paymentProcessingFee := itemPrice * paymentProcessingFeeRate + paymentProcessingFixedFee
    offsiteAdsFee := itemPrice * offsiteAdsFeeRate }

/-! ### MaterialCostEngine (`calculateMaterialCosts`) -/

structure Material where
  name : String
  quantity : ℚ
  unit : String
  preferredSupplier : Option String := none
  deriving Repr, DecidableEq

structure BulkOption where
  bulkQuantity : ℚ
  bulkPrice : ℚ
  deriving Repr, DecidableEq

structure AltSupplier where
  supplier : String
  pricePerUnit : ℚ
  deriving Repr, DecidableEq

structure PriceInfo where
  pricePerUnit : ℚ
  supplier : String
  bulkOption : Option BulkOption := none
  alternatives : Option (List AltSupplier) := none
  deriving Repr, DecidableEq

structure BulkOptionDetail where
  bulkQuantity : ℚ
  bulkPrice : ℚ
  savingsPerUnit : ℚ
  deriving Repr, DecidableEq

structure AltSupplierDetail where
  supplier : String
  pricePerUnit : ℚ
  savings : ℚ
  deriving Repr, DecidableEq

structure MaterialCostDetail where
  name : String
  quantity : ℚ
  unit : String
  pricePerUnit : ℚ
  totalCost : ℚ
  supplier : String
  bulkOption : Option BulkOptionDetail := none
  alternativeSuppliers : Option (List AltSupplierDetail) := none
  deriving Repr, DecidableEq

/-- Tags for the textual recommendations pushed by `calculateMaterialCosts`;
each constructor stands for one push site, with the data interpolated there. -/
inductive MaterialRec where
  | bulkBuy (savings : ℚ) (materialCount : ℕ)
  | altSuppliers (names : List String)
  | highCost
  deriving Repr, DecidableEq

structure MaterialCostsResult where
  materials : List MaterialCostDetail
  totalCost : ℚ
  potentialSavings : ℚ
  recommendations : List MaterialRec
  deriving Repr, DecidableEq

/-- The `mockPriceDatabase` reference catalog, as an association list in
source order. -/
def mockPriceDatabase : List (String × PriceInfo) :=
  [ ("fabric",
     { pricePerUnit := 899/100, supplier := "Joann Fabrics"
       bulkOption := some { bulkQuantity := 10, bulkPrice := 749/100 }
       alternatives := some
         [ { supplier := "Fabric.com", pricePerUnit := 95/10 }
         , { supplier := "Amazon", pricePerUnit := 825/100 } ] })
  , ("cotton",
     { pricePerUnit := 65/10, supplier := "Michaels"
       bulkOption := some { bulkQuantity := 5, bulkPrice := 575/100 } })
  , ("thread",
     { pricePerUnit := 399/100, supplier := "Joann Fabrics"
       bulkOption := some { bulkQuantity := 6, bulkPrice := 325/100 } })
  , ("yarn",
     { pricePerUnit := 799/100, supplier := "Michaels"
       bulkOption := some { bulkQuantity := 8, bulkPrice := 699/100 }
       alternatives := some [ { supplier := "Hobby Lobby", pricePerUnit := 749/100 } ] })
  , ("wool",
     { pricePerUnit := 1299/100, supplier := "Knit Picks"
       bulkOption := some { bulkQuantity := 5, bulkPrice := 115/10 } })
  , ("beads",
     { pricePerUnit := 15/100, supplier := "Fire Mountain Gems"
       bulkOption := some { bulkQuantity := 100, bulkPrice := 1/10 }
       alternatives := some [ { supplier := "Amazon", pricePerUnit := 18/100 } ] })
  , ("wire",
     { pricePerUnit := 999/100, supplier := "Fire Mountain Gems"
       bulkOption := some { bulkQuantity := 5, bulkPrice := 85/10 } })
  , ("clasp",
     { pricePerUnit := 5/10, supplier := "Fire Mountain Gems"
       bulkOption := some { bulkQuantity := 50, bulkPrice := 35/100 } })
  , ("wood",
     { pricePerUnit := 499/100, supplier := "Home Depot"
       bulkOption := some { bulkQuantity := 10, bulkPrice := 425/100 } })
  , ("paint",
     { pricePerUnit := 599/100, supplier := "Michaels"
       alternatives := some [ { supplier := "Blick Art", pricePerUnit := 65/10 } ] })
  , ("glue",
     { pricePerUnit := 45/10, supplier := "Michaels"
       bulkOption := some { bulkQuantity := 4, bulkPrice := 399/100 } })
  , ("paper",
     { pricePerUnit := 25/100, supplier := "Paper Source"
       bulkOption := some { bulkQuantity := 100, bulkPrice := 18/100 } })
  , ("cardstock",
     { pricePerUnit := 35/100, supplier := "Michaels"
       bulkOption := some { bulkQuantity := 50, bulkPrice := 28/100 } })
  , ("wax",
     { pricePerUnit := 25/10, supplier := "CandleScience"
       bulkOption := some { bulkQuantity := 10, bulkPrice := 21/10 } })
  , ("wick",
     { pricePerUnit := 5/10, supplier := "CandleScience"
       bulkOption := some { bulkQuantity := 50, bulkPrice := 35/100 } })
  , ("fragrance oil",
     { pricePerUnit := 1599/100, supplier := "CandleScience"
       bulkOption := some { bulkQuantity := 3, bulkPrice := 1399/100 } })
  , ("soap base",
     { pricePerUnit := 399/100, supplier := "Bramble Berry"
       bulkOption := some { bulkQuantity := 10, bulkPrice := 325/100 } })
  , ("essential oil",
     { pricePerUnit := 1299/100, supplier := "Bramble Berry" })
  , ("clay",
     { pricePerUnit := 1899/100, supplier := "Blick Art"
       bulkOption := some { bulkQuantity := 5, bulkPrice := 165/10 } })
  , ("glaze",
     { pricePerUnit := 1499/100, supplier := "Blick Art" })
  , ("resin",
     { pricePerUnit := 3599/100, supplier := "Amazon"
       bulkOption := some { bulkQuantity := 3, bulkPrice := 3199/100 } })
  , ("resin dye",
     { pricePerUnit := 899/100, supplier := "Amazon" })
  ]

/-- The case-insensitive catalog lookup:
`Object.keys(mockPriceDatabase).find(key => key.toLowerCase() === name.toLowerCase())`. -/
def lookupPriceInfo (name : String) : Option PriceInfo :=
  (mockPriceDatabase.find? (fun kv => kv.fst.toLower == name.toLower)).map (·.snd)

/-- JS `x || d` for an optional string `x`: `undefined`/`null` and the empty
string are falsy. -/
def jsOrString (x : Option String) (d : String) : String :=
  match x with
  | none => d
  | some s => if s = "" then d else s

/-- One line of the `materials.map` in `calculateMaterialCosts`.  The source
guard `if (material.preferredSupplier)` is a JS truthiness test: an
absent/null value and the empty string leave the supplier unchanged; only a
nonempty preferred supplier overrides the displayed name. -/
def resolveMaterial (material : Material) : MaterialCostDetail :=
  let priceInfo0 : PriceInfo :=
    match lookupPriceInfo material.name with
    | some info => info
    | none => { pricePerUnit := 5, supplier := "Generic Supplier" }
  let priceInfo : PriceInfo :=
    match material.preferredSupplier with
    | some s => if s = "" then priceInfo0 else { priceInfo0 with supplier := s }
    | none => priceInfo0
  let totalCost := priceInfo.pricePerUnit * material.quantity
  { name := material.name
    quantity := material.quantity
    unit := material.unit
    pricePerUnit := priceInfo.pricePerUnit
    totalCost := round2 totalCost
    supplier := priceInfo.supplier
    bulkOption := priceInfo.bulkOption.map (fun b =>
      { bulkQuantity := b.bulkQuantity
        bulkPrice := b.bulkPrice
        savingsPerUnit := round2 (priceInfo.pricePerUnit - b.bulkPrice) })
    alternativeSuppliers := priceInfo.alternatives.map (fun alts =>
      alts.map (fun alt =>
        { supplier := alt.supplier
          pricePerUnit := alt.pricePerUnit
          savings := round2 (priceInfo.pricePerUnit - alt.pricePerUnit) })) }

/-- Does this line have a bulk option whose quantity threshold is met? -/
def bulkEligibleLine (m : MaterialCostDetail) : Bool :=
  match m.bulkOption with
  | some b => decide (b.bulkQuantity ≤ m.quantity)
  | none => false

/-- The `cheaperAlternatives` filter predicate of the source:
`m.alternativeSuppliers && m.alternativeSuppliers.some(a => a.savings < 0)`. -/
def altFilterLine (m : MaterialCostDetail) : Bool :=
  match m.alternativeSuppliers with
  | some alts => alts.any (fun a => decide (a.savings < 0))
  | none => false

/-- `calculateMaterialCosts` (MaterialCostEngine). -/
def calculateMaterialCosts (materials : List Material) : MaterialCostsResult :=
  let materialCostDetails := materials.map resolveMaterial
  let totalCost : ℚ := materialCostDetails.foldl (fun sum m => sum + m.totalCost) 0
  let potentialSavings : ℚ := materialCostDetails.foldl (fun sum m =>
    match m.bulkOption with
    | some b => if b.bulkQuantity ≤ m.quantity then sum + b.savingsPerUnit * m.quantity else sum
    | none => sum) 0
  let bulkEligible := materialCostDetails.filter bulkEligibleLine
  let recs1 : List MaterialRec :=
    if bulkEligible.length > 0 then
      [MaterialRec.bulkBuy (round2 potentialSavings) bulkEligible.length]
    else []
  let cheaperAlternatives := materialCostDetails.filter altFilterLine
  let recs2 : List MaterialRec :=
    if cheaperAlternatives.length > 0 then
      [MaterialRec.altSuppliers (cheaperAlternatives.map (·.name))]
    else []
  let recs3 : List MaterialRec := if totalCost > 50 then [MaterialRec.highCost] else []
  { materials := materialCostDetails
    totalCost := round2 totalCost
    potentialSavings := round2 potentialSavings
    recommendations := recs1 ++ recs2 ++ recs3 }

/-! ### CostAnalyzer (`analyzeBusinessCosts`) -/

inductive Frequency where
  | monthly
  | annual
  | oneTime
  deriving Repr, DecidableEq

structure FixedCost where
  name : String
  amount : ℚ
  frequency : Frequency
  deriving Repr, DecidableEq

structure VariableCosts where
  materials : ℚ
  etsyFees : ℚ
  shipping : Option ℚ := none
  labor : Option ℚ := none
  packaging : Option ℚ := none
  deriving Repr, DecidableEq

structure ProfitProjection where
  salesVolume : ℚ
  revenue : ℚ
  totalFixedCosts : ℚ
  totalVariableCosts : ℚ
  totalCosts : ℚ
  grossProfit : ℚ
  netProfit : ℚ
  profitMargin : ℚ
  deriving Repr, DecidableEq

structure CostAnalysisResult where
  sellingPrice : ℚ
  variableCostPerItem : ℚ
  contributionMargin : ℚ
  contributionMarginPercent : ℚ
  monthlyFixedCosts : ℚ
  breakEvenUnits : ℤ
  breakEvenRevenue : ℚ
  projections : List ProfitProjection
  deriving Repr, DecidableEq

structure AnalyzeBusinessCostsParams where
  fixedCosts : List FixedCost
  variableCosts : VariableCosts
  sellingPrice : ℚ
  salesVolumes : List ℚ
  deriving Repr, DecidableEq

/-- The fixed-cost amortization fold of `analyzeBusinessCosts` (annual and
one-time amounts divided by 12), before the final rounding of the returned
field. -/
def monthlyFixedCostsOf (fixedCosts : List FixedCost) : ℚ :=
  fixedCosts.foldl (fun sum cost =>
    match cost.frequency with
    | Frequency.monthly => sum + cost.amount
    | Frequency.annual => sum + cost.amount / 12
    | Frequency.oneTime => sum + cost.amount / 12) 0

/-- The per-item variable-cost sum of `analyzeBusinessCosts` (missing optional
components contribute zero), before the final rounding of the returned
field. -/
def variableCostPerItemOf (variableCosts : VariableCosts) : ℚ :=
  variableCosts.materials +
  variableCosts.etsyFees +
  (variableCosts.shipping.getD 0) +
  (variableCosts.labor.getD 0) +
  (variableCosts.packaging.getD 0)

/-- `analyzeBusinessCosts` from the cost-analysis module.  The break-even and
projection arithmetic uses the exact intermediate quantities; the returned
`sellingPrice`, `variableCostPerItem`, `contributionMargin`,
`contributionMarginPercent`, `monthlyFixedCosts` and `breakEvenRevenue`
fields are rounded to cents (`Math.round(x * 100) / 100`), as in the source;
`breakEvenUnits` and `projections` are returned unrounded.  The textual
recommendations list is not modelled (no verified property mentions it). -/
def analyzeBusinessCosts (params : AnalyzeBusinessCostsParams) : CostAnalysisResult :=
  let monthlyFixedCosts : ℚ := monthlyFixedCostsOf params.fixedCosts
  let variableCostPerItem : ℚ := variableCostPerItemOf params.variableCosts
  let contributionMargin := params.sellingPrice - variableCostPerItem
  let contributionMarginPercent := contributionMargin / params.sellingPrice * 100
  let breakEvenUnits : ℤ := ⌈monthlyFixedCosts / contributionMargin⌉
  let breakEvenRevenue : ℚ := (breakEvenUnits : ℚ) * params.sellingPrice
  let projections := params.salesVolumes.map (fun volume =>
    let revenue := volume * params.sellingPrice
    let totalVariableCosts := volume * variableCostPerItem
    let totalCosts := monthlyFixedCosts + totalVariableCosts
    let grossProfit := revenue - totalVariableCosts
    let netProfit := grossProfit - monthlyFixedCosts
    let profitMargin := if revenue > 0 then netProfit / revenue * 100 else 0
    { salesVolume := volume
      revenue := round2 revenue
      totalFixedCosts := round2 monthlyFixedCosts
      totalVariableCosts := round2 totalVariableCosts
      totalCosts := round2 totalCosts
      grossProfit := round2 grossProfit
      netProfit := round2 netProfit
      profitMargin := round2 profitMargin })
  { sellingPrice := round2 params.sellingPrice
    variableCostPerItem := round2 variableCostPerItem
    contributionMargin := round2 contributionMargin
    contributionMarginPercent := round2 contributionMarginPercent
    monthlyFixedCosts := round2 monthlyFixedCosts
    breakEvenUnits := breakEvenUnits
    breakEvenRevenue := round2 breakEvenRevenue
    projections := projections }

/-! ### SalesEstimator (`estimateSalesVolume`) -/

inductive Scenario where
  | conservative
  | moderate
  | optimistic
  deriving Repr, DecidableEq

structure SalesEstimate where
  scenario : Scenario
  monthlySales : ℤ
  quarterlySales : ℤ
  annualSales : ℤ
  monthlyRevenue : ℚ
  quarterlyRevenue : ℚ
  annualRevenue : ℚ
  deriving Repr, DecidableEq

structure SalesEstimationResult where
  itemName : String
  estimatedPrice : ℚ
  estimates : List SalesEstimate
  deriving Repr, DecidableEq

structure EstimateSalesVolumeParams where
  itemName : String
  competitorPrice : ℚ
  isNewShop : Bool
  marketingBudget : Option ℚ := none
  deriving Repr, DecidableEq

/-- Build one `SalesEstimate` row from a rounded monthly base count. -/
def mkSalesEstimate (scenario : Scenario) (base : ℤ) (competitorPrice : ℚ) : SalesEstimate :=
  { scenario := scenario
    monthlySales := base
    quarterlySales := base * 3
    annualSales := base * 12
    monthlyRevenue := round2 ((base : ℚ) * competitorPrice)
    quarterlyRevenue := round2 ((base : ℚ) * 3 * competitorPrice)
    annualRevenue := round2 ((base : ℚ) * 12 * competitorPrice) }

/-- `estimateSalesVolume` from the sales-estimation module.  The
`timeHorizon` label, key factors, recommendation strings and mock comparable
shops are not modelled (no verified property mentions them). -/
def estimateSalesVolume (params : EstimateSalesVolumeParams) : SalesEstimationResult :=
  let marketingBudget := params.marketingBudget.getD 0
  let baseConservative0 : ℚ := if params.isNewShop then 5 else 15
  let baseModerate0 : ℚ := if params.isNewShop then 15 else 40
  let baseOptimistic0 : ℚ := if params.isNewShop then 30 else 80
  let marketingMultiplier : ℚ := 1 + (marketingBudget / 200) * (5/10)
  let baseConservative : ℤ := jsRound (baseConservative0 * marketingMultiplier)
  let baseModerate : ℤ := jsRound (baseModerate0 * marketingMultiplier)
  let baseOptimistic : ℤ := jsRound (baseOptimistic0 * marketingMultiplier)
  { itemName := params.itemName
    estimatedPrice := params.competitorPrice
    estimates :=
      [ mkSalesEstimate Scenario.conservative baseConservative params.competitorPrice
      , mkSalesEstimate Scenario.moderate baseModerate params.competitorPrice
      , mkSalesEstimate Scenario.optimistic baseOptimistic params.competitorPrice ] }

/-! ### AdvertisingAllocator (`suggestAdvertisingPlatforms`) -/

/-- Does `pat` occur at the head of `l`? (`String.prototype.includes` helper). -/
def leadMatch : List Char → List Char → Bool
  | [], _ => true
  | _ :: _, [] => false
  | p :: ps, x :: xs => p == x && leadMatch ps xs

/-- Does `pat` occur contiguously anywhere in `l`? -/
def containsSeq (pat : List Char) : List Char → Bool
  | [] => leadMatch pat []
  | x :: xs => leadMatch pat (x :: xs) || containsSeq pat xs

/-- JS `s.includes(pat)`. -/
def strIncludes (s pat : String) : Bool := containsSeq pat.toList s.toList

/-- The advertising platform reference entries; the descriptive string fields
(description, pros, cons, …) are presentation only and not modelled. -/
structure AdvertisingPlatform where
  name : String
  typicalCPC : Option ℚ := none
  typicalCPM : Option ℚ := none
  minimumBudget : ℚ
  recommendedBudget : ℚ
  deriving Repr, DecidableEq

inductive PlatformKey where
  | etsyAds
  | googleAds
  | facebookInstagram
  | pinterest
  | tiktok
  deriving Repr, DecidableEq

/-- The `allPlatforms` reference catalog. -/
def allPlatforms : PlatformKey → AdvertisingPlatform
  | PlatformKey.etsyAds =>
    { name := "Etsy Ads", typicalCPC := some (25/100)
      minimumBudget := 1, recommendedBudget := 50 }
  | PlatformKey.googleAds =>
    { name := "Google Ads", typicalCPC := some (15/10), typicalCPM := some 4
      minimumBudget := 10, recommendedBudget := 150 }
  | PlatformKey.facebookInstagram =>
    { name := "Facebook & Instagram Ads", typicalCPC := some (8/10), typicalCPM := some 8
      minimumBudget := 5, recommendedBudget := 100 }
  | PlatformKey.pinterest =>
    { name := "Pinterest Ads", typicalCPC := some (6/10), typicalCPM := some 5
      minimumBudget := 10, recommendedBudget := 75 }
  | PlatformKey.tiktok =>
    { name := "TikTok Ads", typicalCPC := some 1, typicalCPM := some 10
      minimumBudget := 50, recommendedBudget := 150 }

structure BudgetAllocation where
  platform : String
  allocatedBudget : ℚ
  percentage : ℚ
  estimatedClicks : Option ℤ := none
  estimatedImpressions : Option ℤ := none
  reasoning : String
  deriving Repr, DecidableEq

structure ExpectedROI where
  estimatedClicks : ℤ
  estimatedConversionRate : ℚ
  estimatedSales : ℤ
  estimatedRevenue : ℚ
  deriving Repr, DecidableEq

structure AdvertisingResult where
  productCategory : String
  totalBudget : ℚ
  recommendedPlatforms : List AdvertisingPlatform
  budgetAllocation : List BudgetAllocation
  expectedROI : ExpectedROI
  deriving Repr, DecidableEq

structure SuggestAdvertisingPlatformsParams where
  productCategory : String
  monthlyBudget : ℚ
  targetAudience : Option String := none
  deriving Repr, DecidableEq

/-- The category-keyword dispatch of `suggestAdvertisingPlatforms`: the two
platform keys pushed after the always-present `etsyAds`. -/
def categoryExtraKeys (productCategory : String) : List PlatformKey :=
  let categoryKeywords := productCategory.toLower
  if strIncludes categoryKeywords "jewelry" || strIncludes categoryKeywords "fashion" ||
     strIncludes categoryKeywords "clothing" || strIncludes categoryKeywords "accessories" then
    [PlatformKey.facebookInstagram, PlatformKey.pinterest]
  else if strIncludes categoryKeywords "home" || strIncludes categoryKeywords "decor" ||
     strIncludes categoryKeywords "furniture" || strIncludes categoryKeywords "art" then
    [PlatformKey.pinterest, PlatformKey.facebookInstagram]
  else if strIncludes categoryKeywords "craft" || strIncludes categoryKeywords "diy" ||
     strIncludes categoryKeywords "supplies" then
    [PlatformKey.pinterest, PlatformKey.googleAds]
  else if strIncludes categoryKeywords "toy" || strIncludes categoryKeywords "game" ||
     strIncludes categoryKeywords "kids" then
    [PlatformKey.facebookInstagram, PlatformKey.googleAds]
  else
    [PlatformKey.facebookInstagram, PlatformKey.googleAds]

/-- The platform-selection step of `suggestAdvertisingPlatforms`: the
always-present internal platform plus the category pair, restricted to those
whose minimum budget fits, falling back to the internal platform alone. -/
def recommendedPlatformsFor (params : SuggestAdvertisingPlatformsParams) :
    List AdvertisingPlatform :=
  let recommendedPlatformKeys := PlatformKey.etsyAds :: categoryExtraKeys params.productCategory
  let affordablePlatforms := (recommendedPlatformKeys.map allPlatforms).filter
    (fun platform => decide (platform.minimumBudget ≤ params.monthlyBudget))
  if affordablePlatforms.length > 0 then affordablePlatforms
  else [allPlatforms PlatformKey.etsyAds]

/-- The budget-split step of `suggestAdvertisingPlatforms`: tiered at 50 and
150 dollars. -/
def advertisingBudgetAllocation (recommendedPlatforms : List AdvertisingPlatform)
    (monthlyBudget : ℚ) : List BudgetAllocation :=
  if monthlyBudget < 50 then
      [ { platform := "Etsy Ads"
          allocatedBudget := monthlyBudget
          percentage := 100
          estimatedClicks := some (jsRound (monthlyBudget / (25/100)))
          reasoning := "With a limited budget, focus entirely on Etsy Ads for high-intent traffic" } ]
    else if monthlyBudget < 150 then
      let first : BudgetAllocation :=
        { platform := "Etsy Ads"
          allocatedBudget := round2 (monthlyBudget * (6/10))
          percentage := 60
          estimatedClicks := some (jsRound ((monthlyBudget * (6/10)) / (25/100)))
          reasoning := "Primary focus on Etsy Ads where buyers have high purchase intent" }
      match recommendedPlatforms.find? (fun p => p.name != "Etsy Ads") with
      | some secondPlatform =>
        let allocated := round2 (monthlyBudget * (4/10))
        [ first
        , { platform := secondPlatform.name
            allocatedBudget := allocated
            percentage := 40
            estimatedClicks := secondPlatform.typicalCPC.map (fun cpc => jsRound (allocated / cpc))
            estimatedImpressions := secondPlatform.typicalCPM.map
              (fun cpm => jsRound ((allocated / cpm) * 1000))
            reasoning := "Build awareness and reach new audiences outside of Etsy" } ]
      | none => [first]
    else
      let etsyBudget := round2 (monthlyBudget * (4/10))
      let first : BudgetAllocation :=
        { platform := "Etsy Ads"
          allocatedBudget := etsyBudget
          percentage := 40
          estimatedClicks := some (jsRound (etsyBudget / (25/100)))
          reasoning := "Maintain strong presence on Etsy for high-intent traffic" }
      let otherPlatforms := recommendedPlatforms.filter (fun p => p.name != "Etsy Ads")
      let remainingBudget := monthlyBudget - etsyBudget
      let perPlatformBudget := remainingBudget / (otherPlatforms.length : ℚ)
      let perPlatformPercentage : ℚ := 60 / (otherPlatforms.length : ℚ)
      first :: otherPlatforms.map (fun platform =>
        let allocated := round2 perPlatformBudget
        { platform := platform.name
          allocatedBudget := allocated
          percentage := (jsRound perPlatformPercentage : ℚ)
          estimatedClicks := platform.typicalCPC.map (fun cpc => jsRound (allocated / cpc))
          estimatedImpressions := platform.typicalCPM.map
            (fun cpm => jsRound ((allocated / cpm) * 1000))
          reasoning := "Diversify traffic sources and build brand awareness" })

/-- `suggestAdvertisingPlatforms` from the advertising module.  The textual
recommendations list is not modelled (no verified property mentions it). -/
def suggestAdvertisingPlatforms (params : SuggestAdvertisingPlatformsParams) : AdvertisingResult :=
  let monthlyBudget := params.monthlyBudget
  let recommendedPlatforms := recommendedPlatformsFor params
  let budgetAllocation := advertisingBudgetAllocation recommendedPlatforms monthlyBudget
  let totalEstimatedClicks : ℤ := budgetAllocation.foldl
    (fun sum alloc => sum + alloc.estimatedClicks.getD 0) 0
  let estimatedConversionRate : ℚ := 3/100
  { productCategory := params.productCategory
    totalBudget := monthlyBudget
    recommendedPlatforms := recommendedPlatforms
    budgetAllocation := budgetAllocation
    expectedROI :=
      { estimatedClicks := totalEstimatedClicks
        estimatedConversionRate := estimatedConversionRate * 100
        estimatedSales := jsRound ((totalEstimatedClicks : ℚ) * estimatedConversionRate)
        estimatedRevenue := 0 } }

/-! ### Market research (`researchCompetitorPrices`) -/

structure CompetitorListing where
  title : String
  price : ℚ
  sales : ℚ
  reviews : ℚ
  rating : ℚ
  url : String
  deriving Repr, DecidableEq

structure PriceStatistics where
  min : ℚ
  max : ℚ
  average : ℚ
  median : ℚ
  deriving Repr, DecidableEq

structure SuggestedPrice where
  low : ℚ
  mid : ℚ
  high : ℚ
  deriving Repr, DecidableEq

structure MarketResearchResult where
  itemName : String
  competitors : List CompetitorListing
  statistics : PriceStatistics
  suggestedPrice : SuggestedPrice
  deriving Repr, DecidableEq

/-- The ten `mockListings` of `researchCompetitorPrices`. -/
def mockListings (itemName : String) : List CompetitorListing :=
  [ { title := "Handmade " ++ itemName ++ " - Premium Quality", price := 2999/100
      sales := 450, reviews := 123, rating := 48/10, url := "https://etsy.com/listing/mock1" }
  , { title := "Custom " ++ itemName ++ " - Unique Design", price := 35
      sales := 280, reviews := 89, rating := 49/10, url := "https://etsy.com/listing/mock2" }
  , { title := "Artisan " ++ itemName, price := 245/10
      sales := 620, reviews := 201, rating := 47/10, url := "https://etsy.com/listing/mock3" }
  , { title := itemName ++ " - Handcrafted", price := 32
      sales := 150, reviews := 45, rating := 46/10, url := "https://etsy.com/listing/mock4" }
  , { title := "Personalized " ++ itemName, price := 3999/100
      sales := 890, reviews := 312, rating := 5, url := "https://etsy.com/listing/mock5" }
  , { title := itemName ++ " Set", price := 275/10
      sales := 340, reviews := 98, rating := 48/10, url := "https://etsy.com/listing/mock6" }
  , { title := "Vintage Style " ++ itemName, price := 31
      sales := 220, reviews := 67, rating := 47/10, url := "https://etsy.com/listing/mock7" }
  , { title := "Modern " ++ itemName, price := 2899/100
      sales := 510, reviews := 156, rating := 49/10, url := "https://etsy.com/listing/mock8" }
  , { title := "Eco-Friendly " ++ itemName, price := 335/10
      sales := 380, reviews := 134, rating := 48/10, url := "https://etsy.com/listing/mock9" }
  , { title := "Luxury " ++ itemName, price := 45
      sales := 95, reviews := 28, rating := 49/10, url := "https://etsy.com/listing/mock10" }
  ]

/-- `Math.min(...xs)` over a nonempty spread; the `[]` case (JS `Infinity`)
never arises in the source's uses. -/
def listMin : List ℚ → ℚ
  | [] => 0
  | p :: ps => ps.foldl min p

/-- `Math.max(...xs)` over a nonempty spread; the `[]` case (JS `-Infinity`)
never arises in the source's uses. -/
def listMax : List ℚ → ℚ
  | [] => 0
  | p :: ps => ps.foldl max p

/-- `researchCompetitorPrices`.  The insight strings are not modelled
(no verified property mentions them).  Out-of-range array indexing in the
median computation is modelled with a `0` default; it never arises because
the listing set is nonempty. -/
def researchCompetitorPrices (itemName : String) (numberOfListings : ℕ) : MarketResearchResult :=
  let competitors := (mockListings itemName).take numberOfListings
  let prices := competitors.map (·.price)
  let sortedPrices := List.insertionSort (· ≤ ·) prices
  let average : ℚ := (prices.foldl (· + ·) 0) / (prices.length : ℚ)
  let median : ℚ :=
    if sortedPrices.length % 2 = 0 then
      (sortedPrices.getD (sortedPrices.length / 2 - 1) 0 +
       sortedPrices.getD (sortedPrices.length / 2) 0) / 2
    else
      sortedPrices.getD (sortedPrices.length / 2) 0
  { itemName := itemName
    competitors := competitors
    statistics :=
      { min := listMin prices
        max := listMax prices
        average := round2 average
        median := round2 median }
    suggestedPrice :=
      { low := round2 (average * (85/100))
        mid := round2 average
        high := round2 (average * (115/100)) } }

/-! ### PlanOrchestrator (`generateBusinessPlan`) -/

inductive Viability where
  | low
  | moderate
  | high
  deriving Repr, DecidableEq

structure BusinessPlanInput where
  productName : String
  productDescription : Option String := none
  productCategory : String
  materials : List Material
  fixedCosts : List FixedCost
  etsyFees : EtsyFees
  isNewShop : Bool
  targetMonthlyIncome : Option ℚ := none
  marketingBudget : Option ℚ := none
  shippingCostPerItem : Option ℚ := none
  laborCostPerItem : Option ℚ := none
  packagingCostPerItem : Option ℚ := none
  deriving Repr, DecidableEq

structure BusinessPlanSummary where
  productName : String
  recommendedPrice : ℚ
  breakEvenUnits : ℤ
  estimatedMonthlySales : ℤ
  estimatedMonthlyProfit : ℚ
  viabilityScore : Viability
  deriving Repr, DecidableEq

structure BusinessPlanResult where
  summary : BusinessPlanSummary
  marketResearch : MarketResearchResult
  materialCosts : MaterialCostsResult
  costAnalysis : CostAnalysisResult
  salesEstimates : SalesEstimationResult
  advertisingPlan : AdvertisingResult
  deriving Repr, DecidableEq

/-- The `projections.reduce` of `generateBusinessPlan`, generalized:
fold that keeps the element of smallest `dist`, replacing only on a strictly
smaller value (so ties favor the earliest element). -/
def reduceMinBy {α : Type} (dist : α → ℚ) (h : α) (t : List α) : α :=
  t.foldl (fun prev curr => if dist curr < dist prev then curr else prev) h

/-- A `ProfitProjection` of zeroes; stands for the JS exception a `reduce`
over an empty `projections` array would raise.  Unreachable in the
orchestrator, which always passes five sales volumes. -/
def emptyProjection : ProfitProjection :=
  { salesVolume := 0, revenue := 0, totalFixedCosts := 0, totalVariableCosts := 0
    totalCosts := 0, grossProfit := 0, netProfit := 0, profitMargin := 0 }

/-- `reduce` on a whole (possibly empty) list. -/
def reduceMinByList {α : Type} (dist : α → ℚ) (dflt : α) : List α → α
  | [] => dflt
  | h :: t => reduceMinBy dist h t

/-- `generateBusinessPlan` (PlanOrchestrator).  Key insights, action items
and risk strings are not modelled (no verified property mentions them). -/
def generateBusinessPlan (input : BusinessPlanInput) : BusinessPlanResult :=
  let marketResearch := researchCompetitorPrices input.productName 10
  let materialCosts := calculateMaterialCosts input.materials
  let suggestedPrice := marketResearch.suggestedPrice.mid
  let totalEtsyFees :=
    input.etsyFees.listingFee +
    input.etsyFees.transactionFee +
    input.etsyFees.paymentProcessingFee +
    input.etsyFees.offsiteAdsFee
  let variableCosts : VariableCosts :=
    { materials := materialCosts.totalCost
      etsyFees := totalEtsyFees
      shipping := input.shippingCostPerItem
      labor := input.laborCostPerItem
      packaging := input.packagingCostPerItem }
  let costAnalysis := analyzeBusinessCosts
    { fixedCosts := input.fixedCosts
      variableCosts := variableCosts
      sellingPrice := suggestedPrice
      salesVolumes := [10, 25, 50, 100, 200] }
  let salesEstimates := estimateSalesVolume
    { itemName := input.productName
      competitorPrice := suggestedPrice
      isNewShop := input.isNewShop
      marketingBudget := input.marketingBudget }
  let advertisingPlan := suggestAdvertisingPlatforms
    { productCategory := input.productCategory
      monthlyBudget := jsOrDefault input.marketingBudget 50
      targetAudience := input.productDescription }
  let moderateSalesEstimate : ℤ :=
    ((salesEstimates.estimates.find? (fun e => e.scenario == Scenario.moderate)).map
      (·.monthlySales)).getD 0
  let relevantProjection := reduceMinByList
    (fun p => |p.salesVolume - (moderateSalesEstimate : ℚ)|) emptyProjection
    costAnalysis.projections
  let estimatedMonthlyProfit := relevantProjection.netProfit
  let viabilityScore : Viability :=
    if costAnalysis.contributionMarginPercent < 30 ∨
       costAnalysis.breakEvenUnits > moderateSalesEstimate then
      Viability.low
    else if costAnalysis.contributionMarginPercent > 50 ∧
       estimatedMonthlyProfit > jsOrDefault input.targetMonthlyIncome 500 then
      Viability.high
    else
      Viability.moderate
  { summary :=
      { productName := input.productName
        recommendedPrice := suggestedPrice
        breakEvenUnits := costAnalysis.breakEvenUnits
        estimatedMonthlySales := moderateSalesEstimate
        estimatedMonthlyProfit := round2 estimatedMonthlyProfit
        viabilityScore := viabilityScore }
    marketResearch := marketResearch
    materialCosts := materialCosts
    costAnalysis := costAnalysis
    salesEstimates := salesEstimates
    advertisingPlan := advertisingPlan }

/-! ## Helper lemmas -/

lemma jsRound_mono {a b : ℚ} (h : a ≤ b) : jsRound a ≤ jsRound b :=
  Int.floor_le_floor (by linarith)

lemma round2_err (q : ℚ) : |round2 q - q| ≤ 1/200 := by
  have h1 : (jsRound (q * 100) : ℚ) ≤ q * 100 + 1/2 := Int.floor_le (q * 100 + 1/2)
  have h2 : q * 100 + 1/2 - 1 < (jsRound (q * 100) : ℚ) := Int.sub_one_lt_floor (q * 100 + 1/2)
  rw [abs_le]
  unfold round2
  constructor <;> [linarith; linarith]

lemma reduceMinBy_mem {α : Type} (dist : α → ℚ) (a : α) (l : List α) :
    reduceMinBy dist a l ∈ a :: l := by
  induction l generalizing a with
  | nil => simp [reduceMinBy]
  | cons c t ih =>
    have step : reduceMinBy dist a (c :: t)
        = reduceMinBy dist (if dist c < dist a then c else a) t := rfl
    rw [step]
    rcases List.mem_cons.mp (ih (if dist c < dist a then c else a)) with h1 | h2
    · rw [h1]
      split
      · exact List.mem_cons_of_mem _ (List.mem_cons_self _ _)
      · exact List.mem_cons_self _ _
    · exact List.mem_cons_of_mem _ (List.mem_cons_of_mem _ h2)

lemma reduceMinBy_le {α : Type} (dist : α → ℚ) (a : α) (l : List α) :
    ∀ y ∈ a :: l, dist (reduceMinBy dist a l) ≤ dist y := by
  induction l generalizing a with
  | nil =>
    intro y hy
    rcases List.mem_cons.mp hy with h1 | h1
    · subst h1; exact le_refl _
    · simp at h1
  | cons c t ih =>
    intro y hy
    have step : reduceMinBy dist a (c :: t)
        = reduceMinBy dist (if dist c < dist a then c else a) t := rfl
    have hmin : dist (reduceMinBy dist (if dist c < dist a then c else a) t)
        ≤ dist (if dist c < dist a then c else a) :=
      ih _ _ (List.mem_cons_self _ _)
    have hha : dist (if dist c < dist a then c else a) ≤ dist a := by
      split
      · exact le_of_lt (by assumption)
      · exact le_refl _
    have hcle : dist (if dist c < dist a then c else a) ≤ dist c := by
      split
      · exact le_refl _
      · exact le_of_not_lt (by assumption)
    rcases List.mem_cons.mp hy with h1 | h1
    · subst h1; rw [step]; exact le_trans hmin hha
    rcases List.mem_cons.mp h1 with h2 | h2
    · subst h2; rw [step]; exact le_trans hmin hcle
    · rw [step]; exact ih _ y (List.mem_cons_of_mem _ h2)

lemma reduceMinByList_mem {α : Type} (dist : α → ℚ) (dflt : α) (l : List α)
    (hne : l ≠ []) : reduceMinByList dist dflt l ∈ l := by
  cases l with
  | nil => exact absurd rfl hne
  | cons a t => exact reduceMinBy_mem dist a t

lemma reduceMinByList_le {α : Type} (dist : α → ℚ) (dflt : α) (l : List α) :
    ∀ y ∈ l, dist (reduceMinByList dist dflt l) ≤ dist y := by
  cases l with
  | nil => intro y hy; simp at hy
  | cons a t => exact reduceMinBy_le dist a t

/-! ## Claims -/

set_option maxRecDepth 10000

/-- C1 counterexample: on materials = [wax × 12] the engine's `totalCost` is
not 25.20 — the bulk price is never applied to the line total. -/
theorem materialCosts_wax_claim_false :
    (calculateMaterialCosts [{ name := "wax", quantity := 12, unit := "oz" }]).totalCost ≠ 126/5 :=
  of_decide_eq_true (by with_unfolding_all rfl)

/-- C1 (amended): on materials = [wax × 12] the engine returns
`totalCost = 30.00` (the reference unit price 2.50 × 12; the bulk discount is
only reported, not applied) and `potentialSavings = 4.80` ((2.50 − 2.10) × 12,
the bulk tier being reached since 12 ≥ 10). -/
theorem materialCosts_wax_values :
    (calculateMaterialCosts [{ name := "wax", quantity := 12, unit := "oz" }]).totalCost = 30 ∧
    (calculateMaterialCosts [{ name := "wax", quantity := 12, unit := "oz" }]).potentialSavings = 24/5 :=
  of_decide_eq_true (by with_unfolding_all rfl)

/-- Does a resolved line offer an alternative supplier that is strictly
cheaper than the primary supplier? (The condition the spec says should drive
the alternative-supplier recommendation.) -/
def hasCheaperAlt (m : MaterialCostDetail) : Bool :=
  match m.alternativeSuppliers with
  | some alts => alts.any (fun a => decide (a.pricePerUnit < m.pricePerUnit))
  | none => false

/-- C2 (code bug): for yarn (primary 7.99, alternative Hobby Lobby at 7.49 —
strictly cheaper) no alternative-supplier recommendation is emitted, while for
paint (primary 5.99, only alternative Blick Art at 6.50 — strictly dearer) the
recommendation is emitted.  The source filters lines with `savings < 0`, i.e.
alternatives dearer than the primary supplier, inverting the intended
condition. -/
theorem altSupplierRec_inverted :
    ((calculateMaterialCosts [{ name := "yarn", quantity := 1, unit := "skein" }]).materials.any
      hasCheaperAlt) = true ∧
    (calculateMaterialCosts [{ name := "yarn", quantity := 1, unit := "skein" }]).recommendations
      = [] ∧
    ((calculateMaterialCosts [{ name := "paint", quantity := 1, unit := "tube" }]).materials.any
      hasCheaperAlt) = false ∧
    (calculateMaterialCosts [{ name := "paint", quantity := 1, unit := "tube" }]).recommendations
      = [MaterialRec.altSuppliers ["paint"]] :=
  of_decide_eq_true (by with_unfolding_all rfl)

/-- A cost-analysis input with a sub-cent exact contribution margin: selling
price 10.006 against a variable cost of 10 gives an exact margin of 0.006,
returned rounded up to 0.01, while the ceiling 167 is taken over the exact
margin. -/
def subCentMarginParams : AnalyzeBusinessCostsParams :=
  { fixedCosts := [{ name := "fee", amount := 1, frequency := Frequency.monthly }]
    variableCosts := { materials := 10, etsyFees := 0 }
    sellingPrice := 10006/1000
    salesVolumes := [] }

/-- C4 counterexample: on `subCentMarginParams` the returned fields satisfy
the claim's hypotheses (contributionMargin = 0.01 > 0, monthlyFixedCosts =
1 ≥ 0) but breakEvenUnits = 167 = ⌈1 / 0.006⌉ is the least-unit count for the
exact margin, not the rounded one: (167 − 1) × 0.01 = 1.66 is not < 1. -/
theorem breakEven_claim_false :
    0 < (analyzeBusinessCosts subCentMarginParams).contributionMargin ∧
    0 ≤ (analyzeBusinessCosts subCentMarginParams).monthlyFixedCosts ∧
    ¬ ((((analyzeBusinessCosts subCentMarginParams).breakEvenUnits : ℚ) - 1) *
        (analyzeBusinessCosts subCentMarginParams).contributionMargin <
      (analyzeBusinessCosts subCentMarginParams).monthlyFixedCosts) :=
  of_decide_eq_true (by with_unfolding_all rfl)

/-- C4 (amended): whenever the exact (pre-rounding) contribution margin
`sellingPrice − variableCostPerItem` is positive (and the exact monthly fixed
costs are nonnegative), the returned `breakEvenUnits` is the least unit count
whose cumulative contribution covers monthly fixed costs — with respect to
those exact quantities, from which the source computes its ceiling; the
returned `contributionMargin` and `monthlyFixedCosts` fields are the same
quantities rounded to cents. -/
theorem breakEvenUnits_least (params : AnalyzeBusinessCostsParams)
    (hm : 0 < params.sellingPrice - variableCostPerItemOf params.variableCosts)
    (_hf : 0 ≤ monthlyFixedCostsOf params.fixedCosts) :
    monthlyFixedCostsOf params.fixedCosts ≤
      ((analyzeBusinessCosts params).breakEvenUnits : ℚ) *
        (params.sellingPrice - variableCostPerItemOf params.variableCosts) ∧
    (((analyzeBusinessCosts params).breakEvenUnits : ℚ) - 1) *
        (params.sellingPrice - variableCostPerItemOf params.variableCosts) <
      monthlyFixedCostsOf params.fixedCosts := by
  have hbe : (analyzeBusinessCosts params).breakEvenUnits =
      ⌈monthlyFixedCostsOf params.fixedCosts /
        (params.sellingPrice - variableCostPerItemOf params.variableCosts)⌉ := rfl
  set F := monthlyFixedCostsOf params.fixedCosts with hF
  set m := params.sellingPrice - variableCostPerItemOf params.variableCosts with hmdef
  rw [hbe]
  constructor
  · exact (div_le_iff₀ hm).mp (Int.le_ceil (F / m))
  · have h2 : (⌈F / m⌉ : ℚ) < F / m + 1 := Int.ceil_lt_add_one (F / m)
    have h3 : (⌈F / m⌉ : ℚ) - 1 < F / m := by linarith
    exact (lt_div_iff₀ hm).mp h3

/-- The cost-analysis example of the spec: fixed costs 120/month, variable
5 + 2, price 20, volumes [10, 50]. -/
def specExampleParams : AnalyzeBusinessCostsParams :=
  { fixedCosts := [{ name := "subscription", amount := 120, frequency := Frequency.monthly }]
    variableCosts := { materials := 5, etsyFees := 2 }
    sellingPrice := 20
    salesVolumes := [10, 50] }

/-- C4 witness: the spec example has exact contribution margin 13 and
break-even 10 with 120 ≤ 10 × 13 and 9 × 13 < 120. -/
theorem breakEvenUnits_least_witness :
    monthlyFixedCostsOf specExampleParams.fixedCosts ≤
      ((analyzeBusinessCosts specExampleParams).breakEvenUnits : ℚ) *
        (specExampleParams.sellingPrice - variableCostPerItemOf specExampleParams.variableCosts) ∧
    (((analyzeBusinessCosts specExampleParams).breakEvenUnits : ℚ) - 1) *
        (specExampleParams.sellingPrice - variableCostPerItemOf specExampleParams.variableCosts) <
      monthlyFixedCostsOf specExampleParams.fixedCosts :=
  breakEvenUnits_least specExampleParams
    (of_decide_eq_true (by with_unfolding_all rfl))
    (of_decide_eq_true (by with_unfolding_all rfl))

/-- C8: the offsite-ads fee is 0 when the flag is false or null/absent, and is
itemPrice × 0.12 (positive for a positive price) when the flag is strictly
true; a null flag is handled like false, never an error. -/
theorem offsiteAdsFee_flag (itemPrice : ℚ) (offsiteAds : Option Bool) :
    ((offsiteAds = some false ∨ offsiteAds = none) →
      (etsyFeesCalculator itemPrice offsiteAds).offsiteAdsFee = 0) ∧
    (offsiteAds = some true →
      (etsyFeesCalculator itemPrice offsiteAds).offsiteAdsFee = itemPrice * (12/100) ∧
      (0 < itemPrice → 0 < (etsyFeesCalculator itemPrice offsiteAds).offsiteAdsFee)) := by
  constructor
  · rintro (rfl | rfl) <;> simp [etsyFeesCalculator]
  · rintro rfl
    refine ⟨rfl, fun hp => ?_⟩
    have hfee : (etsyFeesCalculator itemPrice (some true)).offsiteAdsFee
        = itemPrice * (12/100) := rfl
    rw [hfee]
    positivity

/-- C8 witness at itemPrice = 30: fee 0 for an absent flag, fee 3.60 > 0 for a
true flag. -/
theorem offsiteAdsFee_flag_witness :
    (etsyFeesCalculator 30 none).offsiteAdsFee = 0 ∧
    (etsyFeesCalculator 30 (some true)).offsiteAdsFee = 30 * (12/100) ∧
    0 < (etsyFeesCalculator 30 (some true)).offsiteAdsFee :=
  ⟨(offsiteAdsFee_flag 30 none).1 (Or.inr rfl),
   ((offsiteAdsFee_flag 30 (some true)).2 rfl).1,
   ((offsiteAdsFee_flag 30 (some true)).2 rfl).2 (by norm_num)⟩

/-- C9 counterexample: the unknown material "unobtainium" with quantity 0.001
resolves at the default price 5.00, but the line total is rounded to cents:
0.01, not 5.00 × 0.001 = 0.005. -/
theorem unknownMaterial_claim_false :
    lookupPriceInfo "unobtainium" = none ∧
    (calculateMaterialCosts [{ name := "unobtainium", quantity := 1/1000, unit := "oz" }]).materials.map
      (·.totalCost) = [1/100] ∧
    ¬ ((1 : ℚ)/100 = 5 * (1/1000)) :=
  of_decide_eq_true (by with_unfolding_all rfl)

/-- C9 (amended): a material whose name matches no catalog key
case-insensitively is still resolved — with the default price 5.00, supplier
"Generic Supplier" unless a nonempty preferred supplier overrides the
displayed name (an absent/null or empty-string preferred supplier is falsy
in the source's truthiness guard), and line total 5.00 × quantity rounded to
cents. -/
theorem unknownMaterial_default (materials : List Material) (m : Material)
    (hmem : m ∈ materials) (hlk : lookupPriceInfo m.name = none) :
    ∃ d ∈ (calculateMaterialCosts materials).materials,
      d.name = m.name ∧ d.pricePerUnit = 5 ∧
      d.supplier = jsOrString m.preferredSupplier "Generic Supplier" ∧
      d.totalCost = round2 (5 * m.quantity) := by
  have hres : resolveMaterial m =
      { name := m.name, quantity := m.quantity, unit := m.unit
        pricePerUnit := 5, totalCost := round2 (5 * m.quantity)
        supplier := jsOrString m.preferredSupplier "Generic Supplier" } := by
    unfold resolveMaterial jsOrString
    rw [hlk]
    rcases hps : m.preferredSupplier with _ | s
    · simp [hps]
    · by_cases hs : s = "" <;> simp [hps, hs]
  refine ⟨resolveMaterial m, List.mem_map_of_mem resolveMaterial hmem, ?_⟩
  rw [hres]
  exact ⟨rfl, rfl, rfl, rfl⟩

/-- C9 witness: an unknown material with integer quantity 3 resolves to price
5.00, generic supplier (no preferred supplier given), and total 15.00. -/
theorem unknownMaterial_default_witness :
    ∃ d ∈ (calculateMaterialCosts
        [{ name := "unobtainium", quantity := 3, unit := "oz" }]).materials,
      d.name = ({ name := "unobtainium", quantity := 3, unit := "oz" } : Material).name ∧
      d.pricePerUnit = 5 ∧
      d.supplier = jsOrString
        ({ name := "unobtainium", quantity := 3, unit := "oz" } : Material).preferredSupplier
        "Generic Supplier" ∧
      d.totalCost = round2 (5 * ({ name := "unobtainium", quantity := 3, unit := "oz" } : Material).quantity) :=
  unknownMaterial_default _ _ (List.mem_singleton.mpr rfl)
    (of_decide_eq_true (by with_unfolding_all rfl))

/-- C10: when the input marketing budget is absent or 0, the advertising stage
is invoked with a monthly budget of 50, so the plan's advertising total budget
is 50. -/
theorem advertising_default_budget (input : BusinessPlanInput)
    (h : input.marketingBudget = none ∨ input.marketingBudget = some 0) :
    (generateBusinessPlan input).advertisingPlan.totalBudget = 50 := by
  have ht : (generateBusinessPlan input).advertisingPlan.totalBudget
      = jsOrDefault input.marketingBudget 50 := rfl
  rw [ht]
  rcases h with h | h <;> rw [h] <;> simp [jsOrDefault]

/-- C10 witness: a plan request with no marketing budget gets an advertising
plan with total budget 50. -/
theorem advertising_default_budget_witness :
    (generateBusinessPlan
      { productName := "mug", productCategory := "art", materials := [], fixedCosts := []
        etsyFees := { listingFee := 0, transactionFee := 0, paymentProcessingFee := 0, offsiteAdsFee := 0 }
        isNewShop := true }).advertisingPlan.totalBudget = 50 :=
  advertising_default_budget _ (Or.inl rfl)

/-- Concrete sales-estimation inputs used in the C6/C7 evaluations. -/
def negBudgetParams : EstimateSalesVolumeParams :=
  { itemName := "candle", competitorPrice := 10, isNewShop := true
    marketingBudget := some (-800) }

def tinyPriceParams : EstimateSalesVolumeParams :=
  { itemName := "candle", competitorPrice := 1/1000, isNewShop := true }

def zeroBudgetParams : EstimateSalesVolumeParams :=
  { itemName := "candle", competitorPrice := 20, isNewShop := true }

def unitPriceParams : EstimateSalesVolumeParams :=
  { itemName := "candle", competitorPrice := 1, isNewShop := true }

/-- The conservative row `estimateSalesVolume` produces for `unitPriceParams`. -/
def unitPriceConservativeRow : SalesEstimate :=
  { scenario := Scenario.conservative, monthlySales := 5, quarterlySales := 15
    annualSales := 60, monthlyRevenue := 5, quarterlyRevenue := 15
    annualRevenue := 60 }

/-- C6 counterexample: with marketing budget −800 the marketing multiplier is
1 + (−800/200)·0.5 = −1 and the rounded monthly bases reverse their order:
conservative = −5 > moderate = −15. -/
theorem scenarioOrdering_claim_false :
    ∃ c ∈ (estimateSalesVolume negBudgetParams).estimates,
    ∃ m ∈ (estimateSalesVolume negBudgetParams).estimates,
      c.scenario = Scenario.conservative ∧ m.scenario = Scenario.moderate ∧
      ¬ (c.monthlySales ≤ m.monthlySales) :=
  of_decide_eq_true (by with_unfolding_all rfl)

/-- C6 (amended): for every input whose marketing budget (defaulting to 0) is
nonnegative, the three scenarios satisfy conservative ≤ moderate ≤ optimistic
for monthly, quarterly and annual sales counts. -/
theorem scenarioOrdering (params : EstimateSalesVolumeParams)
    (hb : 0 ≤ params.marketingBudget.getD 0) :
    ∃ c m o : SalesEstimate,
      (estimateSalesVolume params).estimates = [c, m, o] ∧
      c.scenario = Scenario.conservative ∧ m.scenario = Scenario.moderate ∧
      o.scenario = Scenario.optimistic ∧
      c.monthlySales ≤ m.monthlySales ∧ m.monthlySales ≤ o.monthlySales ∧
      c.quarterlySales ≤ m.quarterlySales ∧ m.quarterlySales ≤ o.quarterlySales ∧
      c.annualSales ≤ m.annualSales ∧ m.annualSales ≤ o.annualSales := by
  have hmult : (0:ℚ) ≤ 1 + (params.marketingBudget.getD 0 / 200) * (5/10) := by
    have h4 : (params.marketingBudget.getD 0 / 200) * (5/10)
        = params.marketingBudget.getD 0 / 400 := by ring
    rw [h4]
    linarith
  have hcm : (if params.isNewShop then (5:ℚ) else 15) ≤ (if params.isNewShop then 15 else 40) := by
    split <;> norm_num
  have hmo : (if params.isNewShop then (15:ℚ) else 40) ≤ (if params.isNewShop then 30 else 80) := by
    split <;> norm_num
  have hcmr := jsRound_mono (mul_le_mul_of_nonneg_right hcm hmult)
  have hmor := jsRound_mono (mul_le_mul_of_nonneg_right hmo hmult)
  refine ⟨_, _, _, rfl, rfl, rfl, rfl, hcmr, hmor, ?_, ?_, ?_, ?_⟩
  · exact mul_le_mul_of_nonneg_right hcmr (by norm_num)
  · exact mul_le_mul_of_nonneg_right hmor (by norm_num)
  · exact mul_le_mul_of_nonneg_right hcmr (by norm_num)
  · exact mul_le_mul_of_nonneg_right hmor (by norm_num)

/-- C6 witness: a new shop with no marketing budget gets ordered estimates
(5 ≤ 15 ≤ 30 monthly, and the 3×/12× multiples likewise). -/
theorem scenarioOrdering_witness :
    ∃ c m o : SalesEstimate,
      (estimateSalesVolume zeroBudgetParams).estimates = [c, m, o] ∧
      c.scenario = Scenario.conservative ∧ m.scenario = Scenario.moderate ∧
      o.scenario = Scenario.optimistic ∧
      c.monthlySales ≤ m.monthlySales ∧ m.monthlySales ≤ o.monthlySales ∧
      c.quarterlySales ≤ m.quarterlySales ∧ m.quarterlySales ≤ o.quarterlySales ∧
      c.annualSales ≤ m.annualSales ∧ m.annualSales ≤ o.annualSales :=
  scenarioOrdering zeroBudgetParams (le_refl 0)

/-- The per-row multiple-and-rounding facts behind C7. -/
lemma mkSalesEstimate_multiples (s : Scenario) (b : ℤ) (p : ℚ) :
    (mkSalesEstimate s b p).quarterlySales = 3 * (mkSalesEstimate s b p).monthlySales ∧
    (mkSalesEstimate s b p).annualSales = 12 * (mkSalesEstimate s b p).monthlySales ∧
    |(mkSalesEstimate s b p).quarterlyRevenue - 3 * (mkSalesEstimate s b p).monthlyRevenue|
      ≤ 1/50 ∧
    |(mkSalesEstimate s b p).annualRevenue - 12 * (mkSalesEstimate s b p).monthlyRevenue|
      ≤ 13/200 := by
  refine ⟨by show b * 3 = 3 * b; ring, by show b * 12 = 12 * b; ring, ?_, ?_⟩
  · show |round2 ((b:ℚ) * 3 * p) - 3 * round2 ((b:ℚ) * p)| ≤ 1/50
    rw [show ((b:ℚ) * 3 * p) = 3 * ((b:ℚ) * p) by ring]
    have h1 := round2_err (3 * ((b:ℚ) * p))
    have h2 := round2_err ((b:ℚ) * p)
    rw [abs_le] at h1 h2 ⊢
    constructor <;> linarith
  · show |round2 ((b:ℚ) * 12 * p) - 12 * round2 ((b:ℚ) * p)| ≤ 13/200
    rw [show ((b:ℚ) * 12 * p) = 12 * ((b:ℚ) * p) by ring]
    have h1 := round2_err (12 * ((b:ℚ) * p))
    have h2 := round2_err ((b:ℚ) * p)
    rw [abs_le] at h1 h2 ⊢
    constructor <;> linarith

/-- C7 counterexample: at competitor price 0.001 (new shop, no budget) the
conservative row has monthlyRevenue 0.01 but quarterlyRevenue 0.02 ≠ 3 × 0.01:
the revenue figures are rounded to cents independently, so they are not exact
multiples of the monthly figure. -/
theorem revenueMultiples_claim_false :
    ∃ e ∈ (estimateSalesVolume tinyPriceParams).estimates,
      e.quarterlyRevenue ≠ 3 * e.monthlyRevenue :=
  of_decide_eq_true (by with_unfolding_all rfl)

/-- C7 (amended): in every returned SalesEstimate the unit counts are exact
multiples (quarterlySales = 3 × monthlySales, annualSales = 12 × monthlySales),
while the revenue figures are each rounded to cents from the exact product and
therefore agree with 3× / 12× the monthly revenue only up to rounding
(within 0.02 and 0.065 respectively). -/
theorem salesMultiples (params : EstimateSalesVolumeParams) (e : SalesEstimate)
    (he : e ∈ (estimateSalesVolume params).estimates) :
    e.quarterlySales = 3 * e.monthlySales ∧
    e.annualSales = 12 * e.monthlySales ∧
    |e.quarterlyRevenue - 3 * e.monthlyRevenue| ≤ 1/50 ∧
    |e.annualRevenue - 12 * e.monthlyRevenue| ≤ 13/200 := by
  cases he with
  | head => exact mkSalesEstimate_multiples _ _ _
  | tail _ he2 =>
    cases he2 with
    | head => exact mkSalesEstimate_multiples _ _ _
    | tail _ he3 =>
      cases he3 with
      | head => exact mkSalesEstimate_multiples _ _ _
      | tail _ he4 => cases he4

/-- C7 witness: the conservative row at price 1 (new shop, no budget) is
(5, 15, 60) in units and (5.00, 15.00, 60.00) in revenue, which satisfies the
multiples and the rounding bounds. -/
theorem salesMultiples_witness :
    unitPriceConservativeRow.quarterlySales = 3 * unitPriceConservativeRow.monthlySales ∧
    unitPriceConservativeRow.annualSales = 12 * unitPriceConservativeRow.monthlySales ∧
    |unitPriceConservativeRow.quarterlyRevenue -
      3 * unitPriceConservativeRow.monthlyRevenue| ≤ 1/50 ∧
    |unitPriceConservativeRow.annualRevenue -
      12 * unitPriceConservativeRow.monthlyRevenue| ≤ 13/200 :=
  salesMultiples unitPriceParams unitPriceConservativeRow
    (of_decide_eq_true (by with_unfolding_all rfl))

/-- The category-keyword dispatch always adds exactly one of four pairs of
external platforms after the internal one. -/
lemma categoryExtraKeys_cases (c : String) :
    categoryExtraKeys c = [PlatformKey.facebookInstagram, PlatformKey.pinterest] ∨
    categoryExtraKeys c = [PlatformKey.pinterest, PlatformKey.facebookInstagram] ∨
    categoryExtraKeys c = [PlatformKey.pinterest, PlatformKey.googleAds] ∨
    categoryExtraKeys c = [PlatformKey.facebookInstagram, PlatformKey.googleAds] := by
  unfold categoryExtraKeys
  dsimp only
  split_ifs <;> simp

/-- For a budget of at least 50 every selected platform is affordable, so the
selection is the internal platform followed by the two external ones. -/
lemma recommendedPlatformsFor_structure (params : SuggestAdvertisingPlatformsParams)
    (h50 : (50:ℚ) ≤ params.monthlyBudget) :
    ∃ A B : AdvertisingPlatform,
      recommendedPlatformsFor params = [allPlatforms PlatformKey.etsyAds, A, B] ∧
      (A.name != "Etsy Ads") = true ∧ (B.name != "Etsy Ads") = true := by
  have e1 : (allPlatforms PlatformKey.etsyAds).minimumBudget ≤ params.monthlyBudget :=
    le_trans (by norm_num [allPlatforms]) h50
  have e2 : (allPlatforms PlatformKey.facebookInstagram).minimumBudget ≤ params.monthlyBudget :=
    le_trans (by norm_num [allPlatforms]) h50
  have e3 : (allPlatforms PlatformKey.pinterest).minimumBudget ≤ params.monthlyBudget :=
    le_trans (by norm_num [allPlatforms]) h50
  have e4 : (allPlatforms PlatformKey.googleAds).minimumBudget ≤ params.monthlyBudget :=
    le_trans (by norm_num [allPlatforms]) h50
  unfold recommendedPlatformsFor
  rcases categoryExtraKeys_cases params.productCategory with h | h | h | h <;> rw [h] <;>
    simp only [List.map, List.filter, decide_eq_true e1, decide_eq_true e2,
      decide_eq_true e3, decide_eq_true e4, List.length, if_pos] <;>
    exact ⟨_, _, rfl, by decide, by decide⟩

lemma jsRound_sixty_half : (jsRound ((60:ℚ) / 2) : ℚ) = 30 := by
  have h : jsRound ((60:ℚ) / 2) = 30 := by
    unfold jsRound
    rw [Int.floor_eq_iff]
    constructor <;> norm_num
  rw [h]
  norm_num

/-- C5: for every product category and every monthly budget, the percentage
fields of the budget allocation sum to exactly 100 (in particular within the
±1 the claim allows): 100 alone below 50; 60 + 40 in the 50–150 band; and
40 + 30 + 30 above, since the two external platforms each receive
round(60/2) = 30. -/
theorem advertising_percentage_sum (params : SuggestAdvertisingPlatformsParams) :
    ((suggestAdvertisingPlatforms params).budgetAllocation.map (·.percentage)).sum = 100 := by
  have hba : (suggestAdvertisingPlatforms params).budgetAllocation
      = advertisingBudgetAllocation (recommendedPlatformsFor params) params.monthlyBudget := rfl
  rw [hba]
  unfold advertisingBudgetAllocation
  dsimp only
  split_ifs with h1 h2
  · simp
  · have h50 : (50:ℚ) ≤ params.monthlyBudget := le_of_not_lt h1
    obtain ⟨A, B, hAB, hA, hB⟩ := recommendedPlatformsFor_structure params h50
    rw [hAB]
    have hfind : (List.find? (fun p => p.name != "Etsy Ads")
        [allPlatforms PlatformKey.etsyAds, A, B]) = some A := by
      rw [List.find?_cons_of_neg, List.find?_cons_of_pos]
      · exact hA
      · decide
    rw [hfind]
    simp
    norm_num
  · have h150 : (150:ℚ) ≤ params.monthlyBudget := le_of_not_lt h2
    have h50 : (50:ℚ) ≤ params.monthlyBudget := le_trans (by norm_num) h150
    obtain ⟨A, B, hAB, hA, hB⟩ := recommendedPlatformsFor_structure params h50
    rw [hAB]
    have hfilter : (List.filter (fun p => p.name != "Etsy Ads")
        [allPlatforms PlatformKey.etsyAds, A, B]) = [A, B] := by
      simp only [List.filter, hA, hB]
      rw [show ((allPlatforms PlatformKey.etsyAds).name != "Etsy Ads") = false by decide]
    rw [hfilter]
    simp [List.map, jsRound_sixty_half]
    norm_num [jsRound_sixty_half]

/-- The viability scoring rule as the spec phrases it, over the derived
quantities of the orchestrator: Low on a thin margin or unreachable
break-even, High on a strong margin with profit above the target threshold,
otherwise Moderate. -/
def viabilityScoreSpec (cmPercent : ℚ) (breakEvenUnits moderateVol : ℤ)
    (expectedProfit targetThreshold : ℚ) : Viability :=
  if cmPercent < 30 ∨ breakEvenUnits > moderateVol then Viability.low
  else if cmPercent > 50 ∧ expectedProfit > targetThreshold then Viability.high
  else Viability.moderate

/-- C3 (amended): the orchestrator's viability score follows the Low / High /
Moderate rule with the expected profit taken from a projection nearest the
moderate sales volume, and with the target threshold resolved as JS
`targetMonthlyIncome || 500` — the default constant 500 applies when the
target is unspecified (and also when it is specified as 0). -/
theorem viability_matches_spec (input : BusinessPlanInput) :
    ∃ p ∈ (generateBusinessPlan input).costAnalysis.projections,
      (∀ q ∈ (generateBusinessPlan input).costAnalysis.projections,
        |p.salesVolume - ((generateBusinessPlan input).summary.estimatedMonthlySales : ℚ)| ≤
        |q.salesVolume - ((generateBusinessPlan input).summary.estimatedMonthlySales : ℚ)|) ∧
      (generateBusinessPlan input).summary.viabilityScore =
        viabilityScoreSpec (generateBusinessPlan input).costAnalysis.contributionMarginPercent
          (generateBusinessPlan input).costAnalysis.breakEvenUnits
          (generateBusinessPlan input).summary.estimatedMonthlySales
          p.netProfit (jsOrDefault input.targetMonthlyIncome 500) := by
  have hlen : (generateBusinessPlan input).costAnalysis.projections.length = 5 := rfl
  have hne : (generateBusinessPlan input).costAnalysis.projections ≠ [] :=
    List.ne_nil_of_length_pos (by rw [hlen]; norm_num)
  refine ⟨reduceMinByList
      (fun p => |p.salesVolume - ((generateBusinessPlan input).summary.estimatedMonthlySales : ℚ)|)
      emptyProjection (generateBusinessPlan input).costAnalysis.projections,
    reduceMinByList_mem _ _ _ hne, reduceMinByList_le _ _ _, rfl⟩

/-- A plan input with a target income specified as 0: contribution margin
51.1% > 50, break-even 36 ≤ moderate volume 40, expected profit 237.50 > 0. -/
def zeroTargetInput : BusinessPlanInput :=
  { productName := "mug"
    productCategory := "art"
    materials := []
    fixedCosts := [{ name := "studio", amount := 600, frequency := Frequency.monthly }]
    etsyFees := { listingFee := 1, transactionFee := 5, paymentProcessingFee := 4, offsiteAdsFee := 6 }
    isNewShop := false
    targetMonthlyIncome := some 0 }

/-- C3 counterexample: on `zeroTargetInput` every High condition of the claim
holds — margin above 50, no Low condition, and the profit of the projection
nearest the moderate volume exceeds the specified target 0 — yet the source
scores Moderate, because `targetMonthlyIncome || 500` turns the falsy target 0
into the default 500 and 237.50 < 500. -/
theorem viability_claim_false :
    zeroTargetInput.targetMonthlyIncome = some 0 ∧
    ¬ ((generateBusinessPlan zeroTargetInput).costAnalysis.contributionMarginPercent < 30) ∧
    ¬ ((generateBusinessPlan zeroTargetInput).costAnalysis.breakEvenUnits >
        (generateBusinessPlan zeroTargetInput).summary.estimatedMonthlySales) ∧
    (generateBusinessPlan zeroTargetInput).costAnalysis.contributionMarginPercent > 50 ∧
    (∃ p ∈ (generateBusinessPlan zeroTargetInput).costAnalysis.projections,
      (∀ q ∈ (generateBusinessPlan zeroTargetInput).costAnalysis.projections,
        |p.salesVolume - ((generateBusinessPlan zeroTargetInput).summary.estimatedMonthlySales : ℚ)| ≤
        |q.salesVolume - ((generateBusinessPlan zeroTargetInput).summary.estimatedMonthlySales : ℚ)|) ∧
      p.netProfit > 0) ∧
    (generateBusinessPlan zeroTargetInput).summary.viabilityScore ≠ Viability.high :=
  of_decide_eq_true (by with_unfolding_all rfl)

end AgentDemos
